import Mathlib

/-!
Verification of the refresh/render data pipeline of the claw-dashboard
terminal program (src/index.js).  JavaScript numbers are modelled as
rationals, JS strings as Lean strings, nullable values as `Option`, and the
mutable `Dashboard` object as an explicit state record transformed by pure
step functions.  Each definition is a direct translation of the
corresponding JavaScript function or statement block; the line numbers in
the doc comments refer to src/index.js.
-/

namespace ClawDashboard

/-- JS `Math.round` for the non-negative-and-small-negative range used here:
`Math.round(x) = ⌊x + 1/2⌋` (ties round up, matching JS). -/
def jsRound (q : ℚ) : ℤ := ⌊q + 1/2⌋

/-- JS `parseFloat(x.toFixed(1))` for non-negative `x`: round to one decimal
place, ties away from zero (for positives this is `⌊10x + 1/2⌋ / 10`). -/
def roundTenths (q : ℚ) : ℚ := ((⌊q * 10 + 1/2⌋ : ℤ) : ℚ) / 10

/-- Bytes in a gibibyte, JS `1024**3`. -/
def GIB : ℚ := 1024 ^ 3

/-- `HISTORY_LENGTH` (index.js line 26). -/
def HISTORY_LENGTH : ℕ := 60

/-- `NETWORK_HISTORY_LENGTH` (index.js line 27). -/
def NETWORK_HISTORY_LENGTH : ℕ := 30

/-! ## gauge (index.js lines 77-80)

`gauge(percent, width)` computes `filled = Math.round((percent/100)*width)`
and returns `'█'.repeat(filled) + '░'.repeat(width - filled)`.
JS `String.repeat` throws a `RangeError` on a negative count, modelled by
`none`. -/

def gauge (percent : ℚ) (width : ℕ) : Option String :=
  let filled : ℤ := jsRound (percent / 100 * width)
  if filled < 0 ∨ (width : ℤ) - filled < 0 then none
  else some (String.mk (List.replicate filled.toNat '█' ++
                        List.replicate ((width : ℤ) - filled).toNat '░'))

/-! ## Sessions and calcTPS (index.js lines 206-214) -/

/-- One session record from `openclaw status --json` (`sessions.recent`
entries).  Only the fields the pipeline reads are modelled; `totalTokens`
may be absent (JS `undefined`). -/
structure Session where
  key : String
  totalTokens : Option ℕ
  deriving DecidableEq, Repr

/-- JS `session.totalTokens || 0` (absent counts as zero). -/
def tokensOf (s : Session) : ℕ := s.totalTokens.getD 0

/-- `calcTPS(session, prevSession, elapsedMs)` (index.js lines 206-214):
returns null when either session is absent or `elapsedMs < 100`; computes
the integer token delta, returns null when it is `≤ 0`; otherwise the rate
`diff / (elapsedMs/1000)`, returned as `parseFloat(tps.toFixed(1))` when the
unrounded rate is positive. -/
def calcTPS : Option Session → Option Session → ℚ → Option ℚ
  | some s, some ps, elapsedMs =>
    if elapsedMs < 100 then none
    else
      let diff : ℤ := (tokensOf s : ℤ) - (tokensOf ps : ℤ)
      if diff ≤ 0 then none
      else
        let tps : ℚ := (diff : ℚ) / (elapsedMs / 1000)
        if 0 < tps then some (roundTenths tps) else none
  | _, _, _ => none

/-! ## History buffers (index.js lines 220, 529-532)

The constructor fills each buffer with zeros; `updateHistory` does
`push(value)` then `shift()` on each tick. -/

/-- One `push(v); shift()` step on a history array. -/
def histPush (h : List ℚ) (v : ℚ) : List ℚ := (h ++ [v]).drop 1

/-- `new Array(c).fill(0)` (index.js line 220). -/
def histInit (c : ℕ) : List ℚ := List.replicate c 0

/-- The buffer of capacity `c` after pushing the values `vs` in order,
starting from the zero-filled initial state. -/
def histRun (c : ℕ) (vs : List ℚ) : List ℚ := vs.foldl histPush (histInit c)

/-! ## Data model of the Dashboard state (index.js lines 216-232)

JS objects read from external sources keep their shape; absent JS fields
are `Option`.  The JS maps `sessionTPS` / `sessionLastTPS` (plain objects
keyed by session key) are modelled as functions `String → Option _`. -/

/-- `settings` (index.js lines 32-38); only the fields the refresh cycle
consults are relevant. -/
structure Settings where
  refreshInterval : ℕ
  showNetwork : Bool
  showGPU : Bool
  showDisk : Bool
  deriving DecidableEq, Repr

/-- `DEFAULT_SETTINGS` (index.js lines 32-38). -/
def defaultSettings : Settings := ⟨2000, true, true, true⟩

/-- Result of `si.currentLoad()`. -/
structure CpuReading where
  cpus : List ℚ
  currentLoad : ℚ
  deriving DecidableEq, Repr

/-- Result of `si.mem()` (byte counts; `available` may be 0/absent, JS
falsy). -/
structure MemReading where
  total : ℕ
  used : ℕ
  available : ℕ
  deriving DecidableEq, Repr

/-- `this.data.memory` as built at index.js lines 544-550 (`toFixed(1)`
display strings modelled as one-decimal rationals). -/
structure MemData where
  usedGB : ℚ
  totalGB : ℚ
  percent : ℤ
  cachedGB : ℚ
  deriving DecidableEq, Repr

/-- Combined result of `si.osInfo()`, `si.versions()`, `si.time()`. -/
structure SysReading where
  distro : String
  release : String
  arch : String
  node : String
  uptime : ℚ
  deriving DecidableEq, Repr

/-- One entry of `si.fsSize()`. -/
structure FsEntry where
  mount : String
  fs : String
  used : ℕ
  available : ℕ
  size : ℕ
  use : ℚ
  deriving DecidableEq, Repr

/-- `this.data.disk` as built at index.js lines 567-574. -/
structure DiskData where
  usedGB : ℚ
  availableGB : ℚ
  totalGB : ℚ
  percent : ℤ
  mount : String
  fs : String
  deriving DecidableEq, Repr

/-- Result of `getMacGPU()` when a model was detected (index.js 196-202). -/
structure GpuInfo where
  model : String
  short : String
  utilization : Option ℚ
  frequency : Option ℕ
  deriving DecidableEq, Repr

/-- One entry of `si.networkStats()`. -/
structure NetIface where
  iface : String
  operstate : String
  internal : Bool
  rx_bytes : ℕ
  tx_bytes : ℕ
  deriving DecidableEq, Repr

/-- `this.lastNetStats` (index.js line 611). -/
structure NetCounters where
  rx_bytes : ℕ
  tx_bytes : ℕ
  deriving DecidableEq, Repr

/-- `this.data.network` as built at index.js lines 599-605. -/
structure NetworkData where
  rxSec : ℚ
  txSec : ℚ
  rxTotal : ℕ
  txTotal : ℕ
  iface : String
  deriving DecidableEq, Repr

/-- `gateway` object of the `openclaw status --json` document. -/
structure Gateway where
  reachable : Bool
  deriving DecidableEq, Repr

/-- `sessions` object of the status document (`recent` may be absent). -/
structure SessionsObj where
  recent : Option (List Session)
  deriving DecidableEq, Repr

/-- One entry of `heartbeat.agents`. -/
structure Agent where
  agentId : Option String
  enabled : Bool
  deriving DecidableEq, Repr

/-- `heartbeat` object of the status document. -/
structure Heartbeat where
  agents : Option (List Agent)
  deriving DecidableEq, Repr

/-- The parsed `openclaw status --json` document (index.js line 620); every
sub-object may be absent. -/
structure OpenclawStatus where
  gateway : Option Gateway
  sessions : Option SessionsObj
  heartbeat : Option Heartbeat
  deriving DecidableEq, Repr

/-- One value of the `sessionTPS` map: `{ value, active }` (index.js lines
636, 641). -/
structure TPSEntry where
  value : Option ℚ
  active : Bool
  deriving DecidableEq, Repr

/-- `this.data` (index.js line 221 plus the fields assigned during
refresh). -/
structure DashData where
  cpu : List ℚ
  cpuAvg : Option ℚ
  memory : Option MemData
  openclaw : Option OpenclawStatus
  gpu : Option GpuInfo
  network : Option NetworkData
  sessions : List Session
  agents : List Agent
  disk : Option DiskData
  system : Option String
  systemUptime : Option ℚ
  gatewayUptime : Option ℚ
  version : Option String
  latest : Option String
  sessionTPS : String → Option TPSEntry
  sessionLastTPS : String → Option ℚ

/-- The four history buffers (index.js line 220). -/
structure Histories where
  cpu : List ℚ
  memory : List ℚ
  netRx : List ℚ
  netTx : List ℚ

/-- The mutable Dashboard fields the refresh cycle touches (index.js
lines 217-224, 595-612). -/
structure DashState where
  settings : Settings
  data : DashData
  prev : Option DashData
  lastTime : ℚ
  history : Histories
  logLines : List String
  lastNetStats : Option NetCounters
  lastNetTime : Option ℚ

/-- Initial `this.data` (index.js line 221; fields not present in the
initializer object are JS `undefined`). -/
def initialData : DashData where
  cpu := []
  cpuAvg := none
  memory := none
  openclaw := none
  gpu := none
  network := none
  sessions := []
  agents := []
  disk := none
  system := none
  systemUptime := none
  gatewayUptime := none
  version := none
  latest := none
  sessionTPS := fun _ => none
  sessionLastTPS := fun _ => none

/-- Initial history buffers (index.js line 220). -/
def initialHistory : Histories :=
  ⟨histInit HISTORY_LENGTH, histInit HISTORY_LENGTH,
   histInit NETWORK_HISTORY_LENGTH, histInit NETWORK_HISTORY_LENGTH⟩

/-- Dashboard state right after the constructor ran (index.js 217-224),
given the loaded settings and the construction time `t0`. -/
def initState (sett : Settings) (t0 : ℚ) : DashState :=
  ⟨sett, initialData, none, t0, initialHistory, [], none, none⟩

/-! ## Per-source refresh steps (index.js lines 534-663)

Each external await is an input: `none` models the underlying call
throwing (or timing out), `some r` a resolved value.  Calls whose failure
is caught by an inner `try`/`catch` never abort the tick; the two awaits
with no inner handler (`Promise.all([si.currentLoad(), si.mem()])` and the
`si.osInfo()`/`si.versions()`/`si.time()` group) propagate to the
top-level `catch` of `refresh`. -/

/-- Memory post-processing (index.js lines 543-550): `actualUsed` uses
`mem.available` when truthy (non-zero). -/
def memDataOf (mem : MemReading) : MemData :=
  let actualUsed : ℤ :=
    if mem.available ≠ 0 then (mem.total : ℤ) - (mem.available : ℤ)
    else (mem.used : ℤ)
  { usedGB := roundTenths ((actualUsed : ℚ) / GIB)
    totalGB := roundTenths ((mem.total : ℚ) / GIB)
    percent := jsRound ((actualUsed : ℚ) / (mem.total : ℚ) * 100)
    cachedGB := roundTenths ((((mem.used : ℤ) - actualUsed : ℤ) : ℚ) / GIB) }

/-- `this.data.system` string (index.js line 557; empty `distro` is JS
falsy). -/
def systemLine (sysi : SysReading) : String :=
  (if sysi.distro = "" then "macOS" else sysi.distro) ++ " " ++
    sysi.release ++ " (" ++ sysi.arch ++ ")  Node v" ++ sysi.node

/-- `updateHistory` (index.js lines 529-532). -/
def updateHistory (h : Histories) (cpu mem : ℚ) : Histories :=
  { h with cpu := histPush h.cpu cpu, memory := histPush h.memory mem }

/-- Disk block (index.js lines 560-578): skipped (field nulled) when
`showDisk` is off; `si.fsSize()` failure is caught and nulls the field;
with no usable entry (`rootFs` falsy) the field keeps its previous value. -/
def diskApply (sett : Settings) (res : Option (List FsEntry))
    (d : DashData) : DashData :=
  if !sett.showDisk then { d with disk := none }
  else
    match res with
    | none => { d with disk := none }
    | some fsSize =>
      let rootFs :=
        match fsSize.find? (fun f => f.mount == "/") with
        | some f => some f
        | none => fsSize.head?
      match rootFs with
      | some r =>
        { d with disk := some ({ usedGB := roundTenths ((r.used : ℚ) / GIB)
                                 availableGB := roundTenths ((r.available : ℚ) / GIB)
                                 totalGB := roundTenths ((r.size : ℚ) / GIB)
                                 percent := jsRound r.use
                                 mount := r.mount
                                 fs := r.fs } : DiskData) }
      | none => d

/-- GPU block (index.js lines 580-585): the sampler result is stored when
`showGPU` is on, otherwise the field is nulled without consulting the
sampler. -/
def gpuApply (sett : Settings) (res : Option GpuInfo) (d : DashData) :
    DashData :=
  if sett.showGPU then { d with gpu := res } else { d with gpu := none }

/-- `netStats.find(n => n.operstate === 'up' && !n.internal) || netStats[0]`
(index.js line 592). -/
def primaryInterface (netStats : List NetIface) : Option NetIface :=
  match netStats.find? (fun n => n.operstate == "up" && !n.internal) with
  | some n => some n
  | none => netStats.head?

/-- Result bundle of the network block. -/
structure NetOut where
  data : DashData
  history : Histories
  lastNetStats : Option NetCounters
  lastNetTime : Option ℚ

/-- Network block (index.js lines 587-616).  When disabled or on a caught
`si.networkStats()` failure the field is nulled.  With a usable interface,
the guard `if (this.lastNetTime && this.lastNetStats)` (line 595) is a JS
truthiness test: it requires the remembered timestamp to be present AND
non-zero (the number 0 is falsy) and the counters object to be present
(objects are always truthy once set).  Only then is a rate computed: a
negative counter delta is clamped to zero (`Math.max(0, ...)`) and the
per-second figures divide by the elapsed seconds since the last sample.
The raw counters and timestamp are remembered for the next tick in either
case.  `nnow` is the `Date.now()` taken inside the block. -/
def netApply (sett : Settings) (res : Option (List NetIface)) (nnow : ℚ)
    (d : DashData) (h : Histories) (lastNetStats : Option NetCounters)
    (lastNetTime : Option ℚ) : NetOut :=
  if !sett.showNetwork then ⟨{ d with network := none }, h, lastNetStats, lastNetTime⟩
  else
    match res with
    | none => ⟨{ d with network := none }, h, lastNetStats, lastNetTime⟩
    | some netStats =>
      match primaryInterface netStats with
      | none => ⟨d, h, lastNetStats, lastNetTime⟩
      | some p =>
        match lastNetTime, lastNetStats with
        | some t, some c =>
          if t = 0 then ⟨d, h, some ⟨p.rx_bytes, p.tx_bytes⟩, some nnow⟩
          else
            let elapsedSec : ℚ := (nnow - t) / 1000
            let rxDiff : ℤ := max 0 ((p.rx_bytes : ℤ) - (c.rx_bytes : ℤ))
            let txDiff : ℤ := max 0 ((p.tx_bytes : ℤ) - (c.tx_bytes : ℤ))
            let nd : NetworkData :=
              ⟨(rxDiff : ℚ) / elapsedSec, (txDiff : ℚ) / elapsedSec,
               p.rx_bytes, p.tx_bytes, p.iface⟩
            ⟨{ d with network := some nd },
             { h with netRx := histPush h.netRx nd.rxSec,
                      netTx := histPush h.netTx nd.txSec },
             some ⟨p.rx_bytes, p.tx_bytes⟩, some nnow⟩
        | _, _ => ⟨d, h, some ⟨p.rx_bytes, p.tx_bytes⟩, some nnow⟩

/-- Status block (index.js lines 618-628): on success store the parsed
document and extract `sessions.recent || []` and `heartbeat?.agents || []`;
on any failure (spawn error, timeout, malformed JSON) null the document,
clear both lists and null `gatewayUptime`. -/
def statusApply (res : Option OpenclawStatus) (d : DashData) : DashData :=
  match res with
  | some oc =>
    { d with openclaw := some oc
             sessions := match oc.sessions with
                         | some so => so.recent.getD []
                         | none => []
             agents := match oc.heartbeat with
                       | some hb => hb.agents.getD []
                       | none => [] }
  | none =>
    { d with openclaw := none, sessions := [], agents := [],
             gatewayUptime := none }

/-- Point update of a JS-object map. -/
def updMap {α : Type} (m : String → Option α) (k : String) (v : α) :
    String → Option α :=
  fun q => if q = k then some v else m q

/-- TPS loop body (index.js lines 632-643) for one current session: find
the previous-tick session with the same key, run `calcTPS`; a fresh rate
marks the entry active and becomes the remembered last rate; otherwise the
entry is `{ value: lastTPS || null, active: false }` (note `||`: a
remembered last rate of `0` is falsy and becomes null). -/
def tpsUpdate (elapsedMs : ℚ) (prevRecent : List Session)
    (maps : (String → Option TPSEntry) × (String → Option ℚ))
    (s : Session) :
    (String → Option TPSEntry) × (String → Option ℚ) :=
  let prevSession := prevRecent.find? (fun p => p.key == s.key)
  match calcTPS (some s) prevSession elapsedMs with
  | some tps =>
      (updMap maps.1 s.key ⟨some tps, true⟩, updMap maps.2 s.key tps)
  | none =>
      let v : Option ℚ :=
        match maps.2 s.key with
        | some w => if w = 0 then none else some w
        | none => none
      (updMap maps.1 s.key ⟨v, false⟩, maps.2)

/-- `openclaw?.sessions?.recent` optional chain. -/
def recentSessions (oc : Option OpenclawStatus) : Option (List Session) :=
  match oc with
  | some o => match o.sessions with
              | some so => so.recent
              | none => none
  | none => none

/-- TPS block (index.js lines 630-644): runs only when both the current
and the previous tick's status documents carry a `sessions.recent` array
(JS: arrays, even empty ones, are truthy). -/
def tpsApply (elapsedMs : ℚ) (prev : Option DashData) (d : DashData) :
    DashData :=
  match recentSessions d.openclaw, prev.bind (fun pd => recentSessions pd.openclaw) with
  | some r, some pr =>
      let maps := r.foldl (tpsUpdate elapsedMs pr) (d.sessionTPS, d.sessionLastTPS)
      { d with sessionTPS := maps.1, sessionLastTPS := maps.2 }
  | _, _ => d

/-- Character-list containment used to model JS `String.includes`. -/
def segStartsAt : List Char → List Char → Bool
  | [], _ => true
  | _ :: _, [] => false
  | p :: ps, c :: cs => p == c && segStartsAt ps cs

/-- JS `line.includes(pat)` on the underlying character lists. -/
def containsSeg (pat : List Char) : List Char → Bool
  | [] => pat.isEmpty
  | c :: cs => segStartsAt pat (c :: cs) || containsSeg pat cs

/-- Log block (index.js lines 649-657): on success trim, split on newlines,
drop lines containing the plugin-register noise, keep the last 20
(`slice(-20)`); on a caught failure replace the lines with the
`Logs unavailable` placeholder. -/
def logStep (res : Option String) (_cur : List String) : List String :=
  match res with
  | some stdout =>
      let lines := String.splitOn stdout.trim ("\n")
      let kept := lines.filter
        (fun line => !containsSeg ("plugin CLI register skipped").toList line.toList)
      kept.drop (kept.length - 20)
  | none => ["Logs unavailable"]

/-- All external inputs of one refresh tick.  `cpuMem = none` and
`sysinfo = none` model the two awaits whose rejection reaches the
top-level `catch`; `renderThrows` models a non-EPIPE exception escaping
`this.render()` into the same `catch` (index.js lines 878-886, 662). -/
structure TickInputs where
  now : ℚ
  cpuMem : Option (CpuReading × MemReading)
  sysinfo : Option SysReading
  diskResult : Option (List FsEntry)
  gpuResult : Option GpuInfo
  netNow : ℚ
  netResult : Option (List NetIface)
  statusResult : Option OpenclawStatus
  gwUptime : Option ℚ
  logsResult : Option String
  renderThrows : Bool

/-- Whether an exception was raised somewhere inside this tick's
`try` block (and swallowed by the top-level `catch (e) {}`). -/
def tickRaisedExn (inp : TickInputs) : Bool :=
  inp.cpuMem.isNone || inp.sysinfo.isNone || inp.renderThrows

/-- One refresh cycle, `Dashboard.refresh` (index.js lines 534-663).
Returns the new state and whether the tick reached the render call with a
freshly committed snapshot.  An uncaught exception before the commit
leaves `prev` and `lastTime` untouched and skips the render; mutations of
`this.data` made before the throw persist, exactly as in the JS object
mutated in place. -/
def refresh (inp : TickInputs) (st : DashState) : DashState × Bool :=
  let elapsed := inp.now - st.lastTime
  match inp.cpuMem with
  | none => (st, false)
  | some (cpu, mem) =>
    let memory := memDataOf mem
    let data1 := { st.data with cpu := cpu.cpus, cpuAvg := some cpu.currentLoad,
                                memory := some memory }
    let hist1 := updateHistory st.history cpu.currentLoad (memory.percent : ℚ)
    match inp.sysinfo with
    | none => ({ st with data := data1, history := hist1 }, false)
    | some sysi =>
      let data2 := { data1 with system := some (systemLine sysi),
                                systemUptime := some sysi.uptime }
      let data3 := diskApply st.settings inp.diskResult data2
      let data4 := gpuApply st.settings inp.gpuResult data3
      let net := netApply st.settings inp.netResult inp.netNow data4 hist1
        st.lastNetStats st.lastNetTime
      let data6 := statusApply inp.statusResult net.data
      let data7 := tpsApply elapsed st.prev data6
      let data8 := { data7 with gatewayUptime := inp.gwUptime }
      let logLines9 := logStep inp.logsResult st.logLines
      ({ st with data := data8, history := net.history,
                 lastNetStats := net.lastNetStats,
                 lastNetTime := net.lastNetTime,
                 logLines := logLines9,
                 prev := some data8, lastTime := inp.now }, true)

/-! ## Render accessors (index.js lines 665-887)

Only the branch structure matters for the claims: the disabled check comes
first, then the data-present check, then the unavailable placeholder. -/

/-- `this.data.openclaw?.gateway?.reachable` as used at index.js line 723
(missing links are falsy). -/
def isOnline (d : DashData) : Bool :=
  match d.openclaw with
  | some oc => match oc.gateway with
               | some g => g.reachable
               | none => false
  | none => false

/-- `formatBitsPerSecond` (index.js lines 107-113), display strings for the
rounded figures. -/
def formatBitsPerSecond (bytesPerSec : ℚ) : String :=
  let bitsPerSec := bytesPerSec * 8
  if bitsPerSec = 0 then "0"
  else if bitsPerSec < 1000 then toString (jsRound bitsPerSec) ++ "b"
  else if bitsPerSec < 1000000 then toString (jsRound (bitsPerSec / 1000)) ++ "K"
  else toString (roundTenths (bitsPerSec / 1000000)) ++ "M"

/-- GPU widget main text (index.js lines 682-702). -/
def gpuValueText (sett : Settings) (gpu : Option GpuInfo) : String :=
  if !sett.showGPU then "[Disabled]"
  else match gpu with
       | some g => g.short
       | none => "Not Detected"

/-- Network widget main text (index.js lines 704-720). -/
def netValueText (sett : Settings) (network : Option NetworkData) : String :=
  if !sett.showNetwork then "[Disabled]"
  else match network with
       | some n => "▼" ++ formatBitsPerSecond n.rxSec ++ " ▲" ++
                   formatBitsPerSecond n.txSec
       | none => "No network"

/-- Disk widget main text (index.js lines 834-852). -/
def diskValueText (sett : Settings) (disk : Option DiskData) : String :=
  if !sett.showDisk then "[Disabled]"
  else match disk with
       | some dk => toString dk.usedGB ++ "GB / " ++ toString dk.totalGB ++ "GB"
       | none => "No disk info"


/-! ## Concrete fixtures

Small concrete readings used to evaluate the pipeline on closed inputs. -/

/-- A sample `si.currentLoad()` result. -/
def sampleCpu : CpuReading := ⟨[10, 20], 15⟩

/-- A sample `si.mem()` result. -/
def sampleMem : MemReading := ⟨1000, 600, 400⟩

/-- A sample combined OS/versions/time reading. -/
def sampleSys : SysReading := ⟨"macOS", "14.0", "arm64", "20.0.0", 3600⟩

/-- A sample root filesystem entry. -/
def sampleFs : FsEntry := ⟨"/", "apfs", 100, 50, 150, 66⟩

/-- A sample GPU reading. -/
def sampleGpu : GpuInfo := ⟨"Apple M3 GPU", "M3 GPU", some 20, some 1000⟩

/-- A sample network interface whose rx counter (5000) will be compared
against remembered counters. -/
def sampleIface : NetIface := ⟨"en0", "up", false, 5000, 3000⟩

/-- A network interface whose rx counter (500) is LOWER than the remembered
previous counter (1000): a counter reset/decrease. -/
def declineIface : NetIface := ⟨"en0", "up", false, 500, 0⟩

/-- A sample healthy status document with empty session/agent lists. -/
def sampleStatus : OpenclawStatus := ⟨some ⟨true⟩, some ⟨some []⟩, some ⟨some []⟩⟩

/-- A fully successful set of tick inputs at t = 2000 ms. -/
def baseInputs : TickInputs :=
  ⟨2000, some (sampleCpu, sampleMem), some sampleSys, some [sampleFs],
   some sampleGpu, 2000, some [sampleIface], some sampleStatus, some 50,
   some ("line1\nline2"), false⟩

/-- Empty `sessionTPS`/`sessionLastTPS` map pair (constructor state). -/
def emptyMaps : (String → Option TPSEntry) × (String → Option ℚ) :=
  (fun _ => none, fun _ => none)

/-- The map pair after one TPS step in which session `k` went from 0 to 1
token over a 100000 ms gap: the unrounded rate 0.01 is positive, but
`parseFloat(tps.toFixed(1))` rounds it to 0, which is stored as an ACTIVE
entry and as the remembered last rate. -/
def mapsAfterActive : (String → Option TPSEntry) × (String → Option ℚ) :=
  tpsUpdate 100000 [⟨"k", some 0⟩] emptyMaps ⟨"k", some 1⟩

/-- A session for the idle-tick scenario: 100 tokens, unchanged. -/
def sessK1 : Session := ⟨"k", some 100⟩

/-- Status document whose `sessions.recent` is `[sessK1]`. -/
def statusWithK : OpenclawStatus := ⟨some ⟨true⟩, some ⟨some [sessK1]⟩, none⟩

/-- Current-tick data for the idle scenario: session `k` present with a
remembered last active rate of 26/5 (= 5.2). -/
def dIdleTick : DashData :=
  { initialData with openclaw := some statusWithK,
                     sessionLastTPS := updMap (fun _ => none) "k" ((26 : ℚ) / 5) }

/-- Previous-tick data for the idle scenario: same session, same tokens. -/
def prevDataIdle : DashData := { initialData with openclaw := some statusWithK }

/-! ## Theorems -/

lemma histPush_foldl (vs : List ℚ) : ∀ h : List ℚ,
    vs.foldl histPush h = (h ++ vs).drop vs.length := by
  induction vs with
  | nil => intro h; simp
  | cons v vs ih =>
      intro h
      have hne : 1 ≤ (h ++ [v]).length := by simp
      calc (v :: vs).foldl histPush h
          = vs.foldl histPush ((h ++ [v]).drop 1) := by simp [histPush]
        _ = ((h ++ [v]).drop 1 ++ vs).drop vs.length := ih _
        _ = (((h ++ [v]) ++ vs).drop 1).drop vs.length := by
              rw [List.drop_append_of_le_length hne]
        _ = (h ++ v :: vs).drop (v :: vs).length := by
              rw [List.drop_drop]
              simp only [List.append_assoc, List.singleton_append,
                List.length_cons]
              rw [Nat.add_comm]

lemma histRun_eq (c : ℕ) (vs : List ℚ) :
    histRun c vs = (List.replicate c (0 : ℚ) ++ vs).drop vs.length := by
  rw [histRun, histPush_foldl, histInit]

/-! ## Theorems for claims C2, C9, C8 -/

/-- Claim C2: for every `(curr, prev, elapsed)` with `prev` present,
`curr > prev` in total tokens, and `elapsed ≥ 100`ms, `calcTPS` returns
exactly `(curr - prev) / (elapsed / 1000)` rounded to one decimal. -/
theorem calcTPS_positive_delta (s p : Session) (e : ℚ)
    (hmin : 100 ≤ e) (hlt : tokensOf p < tokensOf s) :
    calcTPS (some s) (some p) e =
      some (roundTenths (((tokensOf s : ℚ) - (tokensOf p : ℚ)) / (e / 1000))) := by
  have he : ¬ e < 100 := not_lt.2 hmin
  have hepos : (0 : ℚ) < e := lt_of_lt_of_le (by norm_num) hmin
  have hdiff : ¬ ((tokensOf s : ℤ) - (tokensOf p : ℤ) ≤ 0) := by
    simp only [not_le, sub_pos]
    exact_mod_cast hlt
  have hcast : (((tokensOf s : ℤ) - (tokensOf p : ℤ) : ℤ) : ℚ)
      = (tokensOf s : ℚ) - (tokensOf p : ℚ) := by push_cast; ring
  have htps : (0 : ℚ) < ((tokensOf s : ℚ) - (tokensOf p : ℚ)) / (e / 1000) := by
    apply div_pos
    · have : (tokensOf p : ℚ) < (tokensOf s : ℚ) := by exact_mod_cast hlt
      linarith
    · positivity
  simp only [calcTPS, if_neg he, if_neg hdiff, hcast, if_pos htps]

/-- Claim C2 witness: tokens 100 → 200 over 1000 ms produce a rate of
100 tokens per second. -/
theorem calcTPS_positive_delta_witness :
    calcTPS (some ⟨"k", some 200⟩) (some ⟨"k", some 100⟩) 1000 = some 100 := by
  have h := calcTPS_positive_delta ⟨"k", some 200⟩ ⟨"k", some 100⟩ 1000
    (by norm_num) (by simp [tokensOf])
  rw [h]
  norm_num [tokensOf, roundTenths]

/-- Claim C9: for `0 ≤ percent ≤ 100` and any width, `gauge` succeeds (no
negative repeat count, hence no `RangeError`) and the returned string has
exactly `width` characters. -/
theorem gauge_width_exact (p : ℚ) (w : ℕ) (h0 : 0 ≤ p) (h100 : p ≤ 100) :
    (gauge p w).map String.length = some w := by
  have hx0 : (0 : ℚ) ≤ p / 100 * w := by positivity
  have hx1 : p / 100 * w ≤ (w : ℚ) := by
    have h1 : p / 100 ≤ 1 := by linarith [div_le_one_of_le₀ h100 (by norm_num : (0:ℚ) ≤ 100)]
    calc p / 100 * w ≤ 1 * w := by
          apply mul_le_mul_of_nonneg_right h1 (by positivity)
      _ = (w : ℚ) := one_mul _
  have hfl0 : (0 : ℤ) ≤ jsRound (p / 100 * w) := by
    rw [jsRound, Int.le_floor]
    push_cast
    linarith
  have hflw : jsRound (p / 100 * w) ≤ (w : ℤ) := by
    rw [jsRound]
    have : (⌊p / 100 * w + 1/2⌋ : ℤ) ≤ ⌊(w : ℚ) + 1/2⌋ :=
      Int.floor_le_floor (by linarith)
    calc (⌊p / 100 * w + 1/2⌋ : ℤ) ≤ ⌊(w : ℚ) + 1/2⌋ := this
      _ = (w : ℤ) := by
          rw [show ((w : ℚ) + 1/2) = ((w : ℤ) : ℚ) + 1/2 by push_cast; ring,
            Int.floor_int_add]
          norm_num
  have hcond : ¬ (jsRound (p / 100 * w) < 0 ∨ (w : ℤ) - jsRound (p / 100 * w) < 0) := by
    push_neg
    constructor
    · exact hfl0
    · omega
  simp only [gauge, if_neg hcond, Option.map_some', String.length_mk]
  congr 1
  rw [List.length_append, List.length_replicate, List.length_replicate]
  omega

/-- Claim C9 witness: `gauge 50 10` is a 10-character bar. -/
theorem gauge_width_exact_witness : (gauge 50 10).map String.length = some 10 :=
  gauge_width_exact 50 10 (by norm_num) (by norm_num)

/-- Claim C8 amended: after pushing `vs` into a zero-initialized buffer of
capacity `c`, the length is always exactly `c`; once at least `c` values
have been pushed, the buffer is exactly the last `c` pushed values in
oldest-first order (so the oldest of the last `c` pushed values is at index
0); with fewer than `c` pushes the buffer is `c - N` initial zeros followed
by all `N` pushed values in order.  The capacities used by the dashboard
are 60 (CPU, memory) and 30 (network). -/
theorem history_buffer_length_and_order (c : ℕ) (vs : List ℚ) :
    (histRun c vs).length = c ∧
    (c ≤ vs.length → histRun c vs = vs.drop (vs.length - c)) ∧
    (vs.length < c →
      histRun c vs = List.replicate (c - vs.length) (0 : ℚ) ++ vs) ∧
    HISTORY_LENGTH = 60 ∧ NETWORK_HISTORY_LENGTH = 30 := by
  refine ⟨?_, ?_, ?_, rfl, rfl⟩
  · rw [histRun_eq, List.length_drop, List.length_append, List.length_replicate]
    omega
  · intro hc
    rw [histRun_eq]
    conv_lhs =>
      rw [show vs.length = (List.replicate c (0 : ℚ)).length + (vs.length - c) by
        rw [List.length_replicate]; omega]
    rw [List.drop_append]
  · intro hc
    rw [histRun_eq,
      List.drop_append_of_le_length (by rw [List.length_replicate]; omega),
      List.drop_replicate]

/-- Claim C8 witness: 61 pushes into the capacity-60 buffer leave length 60
with the oldest of the last 60 pushed values (the value 2) at index 0. -/
theorem history_buffer_length_and_order_witness :
    (histRun 60 (List.replicate 61 (2 : ℚ))).length = 60 ∧
    histRun 60 (List.replicate 61 (2 : ℚ)) = List.replicate 60 (2 : ℚ) := by
  obtain ⟨hlen, hfull, _, _, _⟩ :=
    history_buffer_length_and_order 60 (List.replicate 61 (2 : ℚ))
  refine ⟨hlen, ?_⟩
  rw [hfull (by simp)]
  simp

/-- Claim C8 counterexample: with capacity 60 and a single pushed value 5,
index 0 of the buffer holds an initial zero, not the oldest pushed value
(5): the claimed oldest-first property fails for fewer than `C` pushes. -/
theorem history_young_buffer_counterexample :
    (histRun 60 [5]).head? = some 0 ∧ (0 : ℚ) ≠ 5 := by
  constructor
  · decide
  · norm_num

/-! ### Shared helper lemmas about calcTPS -/

lemma calcTPS_none_left (p : Option Session) (e : ℚ) :
    calcTPS none p e = none := by
  cases p <;> rfl

lemma calcTPS_none_right (s : Session) (e : ℚ) :
    calcTPS (some s) none e = none := rfl

lemma calcTPS_lt100 (s p : Session) (e : ℚ) (h : e < 100) :
    calcTPS (some s) (some p) e = none := by
  simp only [calcTPS, if_pos h]

lemma calcTPS_nonpos_delta (s p : Session) (e : ℚ)
    (h : tokensOf s ≤ tokensOf p) :
    calcTPS (some s) (some p) e = none := by
  simp only [calcTPS]
  split
  · rfl
  · rw [if_pos (by exact_mod_cast sub_nonpos.2 (Int.ofNat_le.2 h))]

lemma calcTPS_nonneg (s p : Option Session) (e v : ℚ)
    (h : calcTPS s p e = some v) : 0 ≤ v := by
  match s, p with
  | none, p => rw [calcTPS_none_left] at h; exact absurd h (by simp)
  | some s, none => rw [calcTPS_none_right] at h; exact absurd h (by simp)
  | some s, some ps =>
    simp only [calcTPS] at h
    split at h
    · exact absurd h (by simp)
    · split at h
      · exact absurd h (by simp)
      · split at h
        · rename_i htps
          obtain rfl := Option.some.inj h
          rw [roundTenths]
          apply div_nonneg _ (by norm_num)
          have hfl : (0 : ℤ) ≤ ⌊((((tokensOf s : ℤ) - (tokensOf ps : ℤ) : ℤ) : ℚ) / (e / 1000)) * 10 + 1/2⌋ := by
            rw [Int.le_floor]
            push_cast at htps ⊢
            linarith
          exact_mod_cast hfl
        · exact absurd h (by simp)

lemma net_decline_eval :
    (netApply defaultSettings (some [declineIface]) 3000 initialData
        initialHistory (some ⟨1000, 0⟩) (some 1000)).data.network =
      some ⟨0, 0, 500, 0, "en0"⟩ := by
  have hprim : primaryInterface [declineIface] = some declineIface := rfl
  have h1000 : ¬ (1000 : ℚ) = 0 := by norm_num
  simp only [netApply, defaultSettings, Bool.not_true, Bool.false_eq_true,
    if_false, hprim, if_neg h1000]
  simp only [declineIface, Option.some.injEq, NetworkData.mk.injEq]
  norm_num

/-! ### Claim C1 -/

/-- Claim C1 counterexample: the network block does NOT apply the
`calcTPS` guard.  With a truthy remembered timestamp (1000 ms, so the
`this.lastNetTime && this.lastNetStats` guard passes), previous counters
`rx=1000`, and current `rx=500` at now = 3000 ms (a decrease,
`curr - prev ≤ 0`), the block surfaces a ZERO rate (`rxSec = 0`, from
`Math.max(0, diff) / elapsedSec` with elapsedSec = 2) instead of null, so
a zero rate IS surfaced for the network metric and the guard is not
applied identically. -/
theorem net_zero_rate_surfaced :
    (netApply defaultSettings (some [declineIface]) 3000 initialData
        initialHistory (some ⟨1000, 0⟩) (some 1000)).data.network =
      some ⟨0, 0, 500, 0, "en0"⟩ :=
  net_decline_eval

/-- Claim C1 amended: `calcTPS` returns null when `prev` is absent, when
`elapsedMs < 100`, or when the token delta is `≤ 0`, and any rate it does
return is non-negative; the network block instead computes no new rate only
when the JS-falsy guard fails — the remembered timestamp is absent or 0 —
(leaving the field and the rate histories untouched) and otherwise clamps
a non-positive counter delta to zero with `Math.max`, so network rates are
never negative but a zero network rate can be surfaced (the guard is not
applied identically). -/
theorem rate_guards_amended :
    (∀ p e, calcTPS none p e = none) ∧
    (∀ s e, calcTPS (some s) none e = none) ∧
    (∀ s p e, e < 100 → calcTPS (some s) (some p) e = none) ∧
    (∀ s p e, tokensOf s ≤ tokensOf p → calcTPS (some s) (some p) e = none) ∧
    (∀ s p e v, calcTPS s p e = some v → 0 ≤ v) ∧
    (∀ sett l p nnow d h c, sett.showNetwork = true →
       primaryInterface l = some p →
       (netApply sett (some l) nnow d h c none).data.network = d.network ∧
       (netApply sett (some l) nnow d h c none).history.netRx = h.netRx ∧
       (netApply sett (some l) nnow d h c none).history.netTx = h.netTx) ∧
    (∀ sett l p nnow d h c, sett.showNetwork = true →
       primaryInterface l = some p →
       (netApply sett (some l) nnow d h (some c) (some 0)).data.network = d.network ∧
       (netApply sett (some l) nnow d h (some c) (some 0)).history.netRx = h.netRx ∧
       (netApply sett (some l) nnow d h (some c) (some 0)).history.netTx = h.netTx) ∧
    (∀ sett l p nnow d h t c nd, sett.showNetwork = true →
       primaryInterface l = some p → t ≤ nnow → t ≠ 0 →
       (netApply sett (some l) nnow d h (some c) (some t)).data.network = some nd →
       0 ≤ nd.rxSec ∧ 0 ≤ nd.txSec) := by
  refine ⟨calcTPS_none_left, calcTPS_none_right, calcTPS_lt100,
    calcTPS_nonpos_delta, calcTPS_nonneg, ?_, ?_, ?_⟩
  · intro sett l p nnow d h c hshow hprim
    simp [netApply, hshow, hprim]
  · intro sett l p nnow d h c hshow hprim
    simp [netApply, hshow, hprim]
  · intro sett l p nnow d h t c nd hshow hprim hle ht0 hnet
    simp only [netApply, hshow, Bool.not_true, Bool.false_eq_true,
      if_false, hprim, if_neg ht0] at hnet
    obtain rfl := Option.some.inj hnet
    constructor
    · exact div_nonneg (by exact_mod_cast le_max_left 0 _)
        (by apply div_nonneg (by linarith) (by norm_num))
    · exact div_nonneg (by exact_mod_cast le_max_left 0 _)
        (by apply div_nonneg (by linarith) (by norm_num))

/-- Claim C1 amended witness: a shrinking token counter yields null, and
the concrete zero network rate of the decrease scenario (truthy remembered
timestamp 1000 ms, now = 3000 ms) is (only) non-negative. -/
theorem rate_guards_amended_witness :
    calcTPS (some ⟨"k", some 5⟩) (some ⟨"k", some 9⟩) 1000 = none ∧
    (0 ≤ (0 : ℚ) ∧ 0 ≤ (0 : ℚ)) := by
  constructor
  · exact rate_guards_amended.2.2.2.1 ⟨"k", some 5⟩ ⟨"k", some 9⟩ 1000
      (by simp [tokensOf])
  · exact rate_guards_amended.2.2.2.2.2.2.2 defaultSettings [declineIface]
      declineIface 3000 initialData initialHistory 1000 ⟨1000, 0⟩
      ⟨0, 0, 500, 0, "en0"⟩ rfl rfl (by norm_num) (by norm_num) net_decline_eval

/-! ### Claim C3 -/

/-- Claim C3 counterexample: when the log command fails, the previous tick's
lines `["alpha", "beta"]` are NOT retained — they are replaced by the error
placeholder `["Logs unavailable"]`. -/
theorem log_failure_placeholder_counterexample :
    logStep none ["alpha", "beta"] = ["Logs unavailable"] ∧
    logStep none ["alpha", "beta"] ≠ ["alpha", "beta"] := by
  constructor
  · rfl
  · decide

/-- Claim C3 amended: on every tick on which the log sampler command fails,
the log lines are REPLACED with the single placeholder line
`Logs unavailable` (an error placeholder), not retained from tick T-1. -/
theorem log_failure_sets_placeholder :
    (∀ prevLines, logStep none prevLines = ["Logs unavailable"]) ∧
    (∀ inp st cm sy, inp.cpuMem = some cm → inp.sysinfo = some sy →
       inp.logsResult = none →
       (refresh inp st).1.logLines = ["Logs unavailable"]) := by
  constructor
  · intro prevLines; rfl
  · intro inp st cm sy hcm hsy hlog
    obtain ⟨cpu, mem⟩ := cm
    simp [refresh, hcm, hsy, hlog, logStep]

/-- Claim C3 amended witness: a concrete failing-logs tick ends with the
placeholder as its log lines. -/
theorem log_failure_sets_placeholder_witness :
    (refresh { baseInputs with logsResult := none }
        (initState defaultSettings 0)).1.logLines = ["Logs unavailable"] :=
  log_failure_sets_placeholder.2 _ _ (sampleCpu, sampleMem) sampleSys rfl rfl rfl

/-! ### Claim C4 -/

lemma statusApply_none_fields (d : DashData) :
    (statusApply none d).openclaw = none ∧ (statusApply none d).sessions = [] ∧
    (statusApply none d).agents = [] := by
  refine ⟨rfl, rfl, rfl⟩

lemma tpsApply_openclaw_none (e : ℚ) (p : Option DashData) (d : DashData)
    (h : d.openclaw = none) : tpsApply e p d = d := by
  simp [tpsApply, recentSessions, h]

lemma tpsApply_statusNone (e : ℚ) (p : Option DashData) (d : DashData) :
    tpsApply e p (statusApply none d) = statusApply none d :=
  tpsApply_openclaw_none e p _ rfl

/-- Claim C4: if the external-status sampler fails on a tick that commits
(command error, timeout or malformed JSON all reject the awaited exec and
are caught by the status block's own handler), then the committed snapshot
of that tick has a false reachability flag and empty session and agent
lists, regardless of the previous tick's values. -/
theorem status_failure_clears_snapshot (inp : TickInputs) (st : DashState)
    (cm : CpuReading × MemReading) (sy : SysReading)
    (hcm : inp.cpuMem = some cm) (hsy : inp.sysinfo = some sy)
    (hst : inp.statusResult = none) :
    (refresh inp st).1.prev = some (refresh inp st).1.data ∧
    isOnline (refresh inp st).1.data = false ∧
    (refresh inp st).1.data.sessions = [] ∧
    (refresh inp st).1.data.agents = [] := by
  obtain ⟨cpu, mem⟩ := cm
  simp only [refresh, hcm, hsy, hst]
  rw [tpsApply_statusNone]
  refine ⟨?_, ?_, ?_, ?_⟩
  · trivial
  · simp [isOnline, statusApply]
  · simp [statusApply]
  · simp [statusApply]

/-- Claim C4 witness: a concrete tick with a failed status fetch commits a
snapshot that is offline with no sessions and no agents. -/
theorem status_failure_clears_snapshot_witness :
    (refresh { baseInputs with statusResult := none }
        (initState defaultSettings 0)).1.prev =
      some (refresh { baseInputs with statusResult := none }
        (initState defaultSettings 0)).1.data ∧
    isOnline (refresh { baseInputs with statusResult := none }
        (initState defaultSettings 0)).1.data = false ∧
    (refresh { baseInputs with statusResult := none }
        (initState defaultSettings 0)).1.data.sessions = [] ∧
    (refresh { baseInputs with statusResult := none }
        (initState defaultSettings 0)).1.data.agents = [] :=
  status_failure_clears_snapshot _ _ (sampleCpu, sampleMem) sampleSys rfl rfl rfl

/-! ### Claim C6 -/

/-- Claim C6 counterexample: in the committed snapshot, a source disabled
by settings and an enabled-but-failed source produce the SAME field value
(`null` / `none`) for GPU, disk and network alike — the snapshot field is
not a distinct "disabled" value.  (The rendered text differs only because
`render` consults the settings toggle, not the field.) -/
theorem disabled_field_equals_unavailable :
    (gpuApply ⟨2000, true, false, true⟩ (some sampleGpu) initialData).gpu = none ∧
    (gpuApply defaultSettings none initialData).gpu = none ∧
    (diskApply ⟨2000, true, true, false⟩ (some [sampleFs]) initialData).disk = none ∧
    (diskApply defaultSettings none initialData).disk = none ∧
    (netApply ⟨2000, false, true, true⟩ (some [sampleIface]) 2000 initialData
        initialHistory none none).data.network = none ∧
    (netApply defaultSettings none 2000 initialData initialHistory
        none none).data.network = none :=
  ⟨rfl, rfl, rfl, rfl, rfl, rfl⟩

/-- Claim C6 amended: when a source's toggle is off its sampler result is
never consulted (the step is insensitive to it) and the snapshot field is
set to `none` — the SAME sentinel an enabled-but-failed sampler produces;
the "disabled" state is distinguishable only at render time, where the
toggle is checked first and yields `[Disabled]` versus the unavailable
placeholders `Not Detected` / `No network` / `No disk info`. -/
theorem disabled_sources_skipped_render_distinct :
    (∀ sett (d : DashData) (r r' : Option GpuInfo), sett.showGPU = false →
       gpuApply sett r d = gpuApply sett r' d ∧ (gpuApply sett r d).gpu = none) ∧
    (∀ sett (d : DashData) (r r' : Option (List FsEntry)), sett.showDisk = false →
       diskApply sett r d = diskApply sett r' d ∧ (diskApply sett r d).disk = none) ∧
    (∀ sett (d : DashData) h a b nnow (r r' : Option (List NetIface)),
       sett.showNetwork = false →
       netApply sett r nnow d h a b = netApply sett r' nnow d h a b ∧
       (netApply sett r nnow d h a b).data.network = none ∧
       (netApply sett r nnow d h a b).history = h ∧
       (netApply sett r nnow d h a b).lastNetStats = a ∧
       (netApply sett r nnow d h a b).lastNetTime = b) ∧
    (∀ sett (g : Option GpuInfo), sett.showGPU = false →
       gpuValueText sett g = "[Disabled]") ∧
    (∀ sett, sett.showGPU = true → gpuValueText sett none = "Not Detected") ∧
    (∀ sett (n : Option NetworkData), sett.showNetwork = false →
       netValueText sett n = "[Disabled]") ∧
    (∀ sett, sett.showNetwork = true → netValueText sett none = "No network") ∧
    (∀ sett (dk : Option DiskData), sett.showDisk = false →
       diskValueText sett dk = "[Disabled]") ∧
    (∀ sett, sett.showDisk = true → diskValueText sett none = "No disk info") ∧
    ("[Disabled]" ≠ "Not Detected" ∧ "[Disabled]" ≠ "No network" ∧
     "[Disabled]" ≠ "No disk info") := by
  refine ⟨?_, ?_, ?_, ?_, ?_, ?_, ?_, ?_, ?_, by decide, by decide, by decide⟩
  · intro sett d r r' hs
    constructor <;> simp [gpuApply, hs]
  · intro sett d r r' hs
    constructor <;> simp [diskApply, hs]
  · intro sett d h a b nnow r r' hs
    refine ⟨?_, ?_, ?_, ?_, ?_⟩ <;> simp [netApply, hs]
  · intro sett g hs
    simp [gpuValueText, hs]
  · intro sett hs
    simp [gpuValueText, hs]
  · intro sett n hs
    simp [netValueText, hs]
  · intro sett hs
    simp [netValueText, hs]
  · intro sett dk hs
    simp [diskValueText, hs]
  · intro sett hs
    simp [diskValueText, hs]

/-- Claim C6 amended witness: with GPU disabled, a successful sampler
reading and a failed one produce identical results with a null field, and
the rendered text is the disabled marker. -/
theorem disabled_sources_skipped_render_distinct_witness :
    (gpuApply ⟨2000, true, false, true⟩ (some sampleGpu) initialData =
       gpuApply ⟨2000, true, false, true⟩ none initialData ∧
     (gpuApply ⟨2000, true, false, true⟩ (some sampleGpu) initialData).gpu = none) ∧
    gpuValueText ⟨2000, true, false, true⟩ (some sampleGpu) = "[Disabled]" :=
  ⟨disabled_sources_skipped_render_distinct.1 ⟨2000, true, false, true⟩
      initialData (some sampleGpu) none rfl,
   disabled_sources_skipped_render_distinct.2.2.2.1 ⟨2000, true, false, true⟩
      (some sampleGpu) rfl⟩

/-! ### Claim C7 -/

/-- Claim C7 counterexample: a non-EPIPE exception thrown inside
`this.render()` (step 7) is an uncaught exception "in the cycle" — it is
swallowed by the top-level catch — yet `prev` and `lastTime` have ALREADY
been reassigned by then (index.js 659-660 run before 661), so they are not
left unchanged on such a tick. -/
theorem render_exception_after_commit :
    tickRaisedExn { baseInputs with renderThrows := true } = true ∧
    (initState defaultSettings 0).prev.isSome = false ∧
    (refresh { baseInputs with renderThrows := true }
        (initState defaultSettings 0)).1.prev.isSome = true ∧
    (initState defaultSettings 0).lastTime = 0 ∧
    (refresh { baseInputs with renderThrows := true }
        (initState defaultSettings 0)).1.lastTime = 2000 :=
  ⟨rfl, rfl, rfl, rfl, rfl⟩

/-- Claim C7 amended: every exception inside the refresh cycle is swallowed
at the top level (the step function is total) and only that tick is
affected.  If the exception occurs before the commit — the unguarded
CPU/memory await or the OS-info/versions/time awaits — `prev` and
`lastTime` are left unchanged and no render of a new snapshot occurs.  But
if it occurs during the final render, the commit has already happened:
`prev` holds the new snapshot and `lastTime` the new tick time. -/
theorem refresh_exception_containment :
    (∀ inp st, inp.cpuMem = none → refresh inp st = (st, false)) ∧
    (∀ inp st cm, inp.cpuMem = some cm → inp.sysinfo = none →
       (refresh inp st).1.prev = st.prev ∧
       (refresh inp st).1.lastTime = st.lastTime ∧
       (refresh inp st).2 = false) ∧
    (∀ inp st cm sy, inp.cpuMem = some cm → inp.sysinfo = some sy →
       (refresh inp st).1.prev = some (refresh inp st).1.data ∧
       (refresh inp st).1.lastTime = inp.now ∧
       (refresh inp st).2 = true) := by
  refine ⟨?_, ?_, ?_⟩
  · intro inp st hcm
    simp only [refresh, hcm]
  · intro inp st cm hcm hsy
    obtain ⟨cpu, mem⟩ := cm
    refine ⟨?_, ?_, ?_⟩ <;> simp only [refresh, hcm, hsy]
  · intro inp st cm sy hcm hsy
    obtain ⟨cpu, mem⟩ := cm
    refine ⟨?_, ?_, ?_⟩ <;> simp only [refresh, hcm, hsy]

/-- Claim C7 amended witness: a tick whose CPU/memory fetch rejects leaves
the whole state unchanged and renders nothing. -/
theorem refresh_exception_containment_witness :
    refresh { baseInputs with cpuMem := none } (initState defaultSettings 0) =
      (initState defaultSettings 0, false) :=
  refresh_exception_containment.1 { baseInputs with cpuMem := none }
    (initState defaultSettings 0) rfl

/-! ### Shared lemmas about the TPS block (claims C5, C10) -/

lemma tpsUpdate_other_key (e : ℚ) (pr : List Session)
    (maps : (String → Option TPSEntry) × (String → Option ℚ)) (t : Session)
    (k : String) (ht : (t.key == k) = false) :
    (tpsUpdate e pr maps t).1 k = maps.1 k ∧
    (tpsUpdate e pr maps t).2 k = maps.2 k := by
  have hk : k ≠ t.key := by
    intro h
    rw [h] at ht
    simp at ht
  unfold tpsUpdate
  rcases hres : calcTPS (some t) (pr.find? fun p => p.key == t.key) e with _ | tps
  · simp only [hres]
    exact ⟨by simp [updMap, hk], by trivial⟩
  · simp only [hres]
    exact ⟨by simp [updMap, hk], by simp [updMap, hk]⟩

lemma tpsFold_other_keys (e : ℚ) (pr : List Session) (k : String) :
    ∀ (r : List Session) (maps : (String → Option TPSEntry) × (String → Option ℚ)),
      (∀ t ∈ r, (t.key == k) = false) →
      ((r.foldl (tpsUpdate e pr) maps).1 k = maps.1 k ∧
       (r.foldl (tpsUpdate e pr) maps).2 k = maps.2 k) := by
  intro r
  induction r with
  | nil => intro maps _; exact ⟨rfl, rfl⟩
  | cons t rest ih =>
      intro maps hall
      have hstep := tpsUpdate_other_key e pr maps t k (hall t (by simp))
      have hrest := ih (tpsUpdate e pr maps t)
        (fun t' ht' => hall t' (by simp [ht']))
      rw [List.foldl_cons]
      exact ⟨hrest.1.trans hstep.1, hrest.2.trans hstep.2⟩

lemma tpsFold_idle_entry (e : ℚ) (pr : List Session) (k : String)
    (s ps : Session) (v : ℚ)
    (hk : s.key = k)
    (hfind : pr.find? (fun p => p.key == s.key) = some ps)
    (htok : tokensOf ps = tokensOf s) (hv : v ≠ 0) :
    ∀ (r : List Session) (maps : (String → Option TPSEntry) × (String → Option ℚ)),
      r.filter (fun t => t.key == k) = [s] →
      maps.2 k = some v →
      (r.foldl (tpsUpdate e pr) maps).1 k = some ⟨some v, false⟩ := by
  intro r
  induction r with
  | nil => intro maps hf _; simp at hf
  | cons t rest ih =>
      intro maps hf hlast
      rw [List.filter_cons] at hf
      by_cases htk : (t.key == k) = true
      · rw [if_pos htk] at hf
        injection hf with h1 hnil
        subst h1
        have hcalc : calcTPS (some t) (pr.find? fun p => p.key == t.key) e = none := by
          rw [hfind, calcTPS_nonpos_delta t ps e (le_of_eq htok.symm)]
        have hstep1 : (tpsUpdate e pr maps t).1 k = some ⟨some v, false⟩ := by
          unfold tpsUpdate
          simp only [hcalc]
          simp [updMap, hk, hlast, hv]
        have hrest : ∀ t' ∈ rest, (t'.key == k) = false := by
          intro t' ht'
          have := List.filter_eq_nil_iff.mp hnil t' ht'
          simpa using this
        rw [List.foldl_cons]
        rw [(tpsFold_other_keys e pr k rest (tpsUpdate e pr maps t) hrest).1]
        exact hstep1
      · rw [if_neg htk] at hf
        have hstep := tpsUpdate_other_key e pr maps t k (by simpa using htk)
        rw [List.foldl_cons]
        exact ih (tpsUpdate e pr maps t) hf (by rw [hstep.2]; exact hlast)

/-- The active-implies-stored-rate-nonneg invariant on the `sessionTPS`
map. -/
def ActiveNonneg (m : String → Option TPSEntry) : Prop :=
  ∀ k en, m k = some en → en.active = true → ∃ w, en.value = some w ∧ 0 ≤ w

lemma tpsUpdate_activeNonneg (e : ℚ) (pr : List Session)
    (maps : (String → Option TPSEntry) × (String → Option ℚ)) (s : Session)
    (hm : ActiveNonneg maps.1) : ActiveNonneg (tpsUpdate e pr maps s).1 := by
  intro k en hen hact
  unfold tpsUpdate at hen
  rcases hres : calcTPS (some s) (pr.find? fun p => p.key == s.key) e with _ | tps
  · simp only [hres] at hen
    unfold updMap at hen
    by_cases hk : k = s.key
    · rw [if_pos hk] at hen
      obtain rfl := Option.some.inj hen
      simp at hact
    · rw [if_neg hk] at hen
      exact hm k en hen hact
  · simp only [hres] at hen
    unfold updMap at hen
    by_cases hk : k = s.key
    · rw [if_pos hk] at hen
      obtain rfl := Option.some.inj hen
      exact ⟨tps, rfl, calcTPS_nonneg _ _ _ _ hres⟩
    · rw [if_neg hk] at hen
      exact hm k en hen hact

lemma tpsFold_activeNonneg (e : ℚ) (pr : List Session) :
    ∀ (r : List Session) (maps : (String → Option TPSEntry) × (String → Option ℚ)),
      ActiveNonneg maps.1 →
      ActiveNonneg ((r.foldl (tpsUpdate e pr) maps).1) := by
  intro r
  induction r with
  | nil => intro maps h; exact h
  | cons s rest ih =>
      intro maps h
      rw [List.foldl_cons]
      exact ih _ (tpsUpdate_activeNonneg e pr maps s h)

lemma tpsApply_activeNonneg (e : ℚ) (p : Option DashData) (d : DashData)
    (h : ActiveNonneg d.sessionTPS) :
    ActiveNonneg ((tpsApply e p d).sessionTPS) := by
  unfold tpsApply
  split
  · exact tpsFold_activeNonneg e _ _ (d.sessionTPS, d.sessionLastTPS) h
  · exact h

lemma diskApply_sessionTPS (sett : Settings) (r : Option (List FsEntry))
    (d : DashData) : (diskApply sett r d).sessionTPS = d.sessionTPS := by
  unfold diskApply
  split
  · rfl
  · split
    · rfl
    · split
      · rfl
      · dsimp only
        split <;> rfl

lemma gpuApply_sessionTPS (sett : Settings) (r : Option GpuInfo)
    (d : DashData) : (gpuApply sett r d).sessionTPS = d.sessionTPS := by
  unfold gpuApply
  split <;> rfl

lemma netApply_sessionTPS (sett : Settings) (r : Option (List NetIface))
    (nnow : ℚ) (d : DashData) (h : Histories) (a : Option NetCounters)
    (b : Option ℚ) : (netApply sett r nnow d h a b).data.sessionTPS = d.sessionTPS := by
  unfold netApply
  split
  · rfl
  · split
    · rfl
    · split
      · rfl
      · split
        all_goals first
          | rfl
          | (split <;> rfl)

lemma statusApply_sessionTPS (r : Option OpenclawStatus) (d : DashData) :
    (statusApply r d).sessionTPS = d.sessionTPS := by
  cases r <;> rfl

/-- `calcTPS` on a slow trickle: 1 token over 100000 ms is an unrounded
rate of 0.01 tokens/s, positive, yet `parseFloat(tps.toFixed(1))` rounds it
to 0, which calcTPS RETURNS (the `tps > 0` check uses the unrounded
value). -/
lemma calcTPS_small_rate_eval :
    calcTPS (some ⟨"k", some 1⟩) (some ⟨"k", some 0⟩) 100000 = some 0 := by
  simp only [calcTPS, tokensOf, Option.getD_some]
  norm_num [roundTenths]

lemma mapsAfterActive_eval :
    mapsAfterActive.1 "k" = some ⟨some 0, true⟩ ∧
    mapsAfterActive.2 "k" = some 0 := by
  have hfind : ([⟨"k", some 0⟩] : List Session).find?
      (fun p => p.key == (Session.mk "k" (some 1)).key) = some ⟨"k", some 0⟩ := by
    decide
  unfold mapsAfterActive tpsUpdate
  simp only [hfind, calcTPS_small_rate_eval]
  constructor <;> simp [updMap]

lemma idle_after_zero_eval :
    (tpsUpdate 100000 [⟨"k", some 1⟩] mapsAfterActive ⟨"k", some 1⟩).1 "k"
      = some ⟨none, false⟩ := by
  have hfind : ([⟨"k", some 1⟩] : List Session).find?
      (fun p => p.key == (Session.mk "k" (some 1)).key) = some ⟨"k", some 1⟩ := by
    decide
  have hcalc : calcTPS (some ⟨"k", some 1⟩) (some ⟨"k", some 1⟩) 100000 = none :=
    calcTPS_nonpos_delta _ _ _ (le_refl _)
  unfold tpsUpdate
  simp only [hfind, hcalc, mapsAfterActive_eval.2]
  simp [updMap]

/-! ### Claim C5 -/

/-- Claim C5 counterexample: on tick A session `k` gains 1 token over
100000 ms; the rounded rate 0 is stored as an ACTIVE entry (and as the
remembered last rate).  On tick B the tokens are unchanged (1 → 1, a tick
≥ 100 ms later): the entry becomes `{value: null, active: false}` — even
though an active tick existed, the value is null (and not equal to that
tick's rate), because `lastTPS || null` treats the remembered 0 as falsy. -/
theorem tps_idle_zero_last_counterexample :
    mapsAfterActive.1 "k" = some ⟨some 0, true⟩ ∧
    (tpsUpdate 100000 [⟨"k", some 1⟩] mapsAfterActive ⟨"k", some 1⟩).1 "k"
      = some ⟨none, false⟩ :=
  ⟨mapsAfterActive_eval.1, idle_after_zero_eval⟩

/-- Claim C5 amended: for a session present in two consecutive ticks with
`totalTokens` unchanged (and the tick gap ≥ 100 ms), after the second tick
the session's throughput entry has `active = false` and its value equals
the remembered rate of the last active tick, PROVIDED that remembered rate
is non-zero; a remembered rate of exactly 0 (possible via rounding) is
coerced to null by `lastTPS || null`. -/
theorem tps_idle_retains_last_active (elapsedMs : ℚ) (prevData : DashData)
    (d : DashData) (r pr : List Session) (s ps : Session) (k : String) (v : ℚ)
    (hr : recentSessions d.openclaw = some r)
    (hpr : recentSessions prevData.openclaw = some pr)
    (hk : s.key = k)
    (hone : r.filter (fun t => t.key == k) = [s])
    (hfind : pr.find? (fun p => p.key == s.key) = some ps)
    (htok : tokensOf ps = tokensOf s)
    (_hmin : 100 ≤ elapsedMs)
    (hlast : d.sessionLastTPS k = some v) (hv : v ≠ 0) :
    (tpsApply elapsedMs (some prevData) d).sessionTPS k = some ⟨some v, false⟩ := by
  have hbind : (some prevData).bind (fun pd => recentSessions pd.openclaw) = some pr := by
    rw [Option.some_bind]
    exact hpr
  unfold tpsApply
  rw [hr, hbind]
  exact tpsFold_idle_entry elapsedMs pr k s ps v hk hfind htok hv r
    (d.sessionTPS, d.sessionLastTPS) hone hlast

/-- Claim C5 amended witness: session `k` at 100 tokens on both ticks, with
a remembered last active rate of 26/5 = 5.2, ends with entry
`{value: 5.2, active: false}`. -/
theorem tps_idle_retains_last_active_witness :
    (tpsApply 2000 (some prevDataIdle) dIdleTick).sessionTPS "k"
      = some ⟨some ((26 : ℚ) / 5), false⟩ :=
  tps_idle_retains_last_active 2000 prevDataIdle dIdleTick [sessK1] [sessK1]
    sessK1 sessK1 "k" ((26 : ℚ) / 5) rfl rfl rfl (by decide) (by decide) rfl
    (by norm_num) (by simp [dIdleTick, updMap]) (by norm_num)

/-! ### Claim C10 -/

/-- Claim C10 counterexample: an entry written as ACTIVE can carry value 0
(not a strictly positive number): 1 token over 100000 ms rounds to 0.0 but
passes the unrounded `tps > 0` check, so the TPS block stores
`{value: 0, active: true}`. -/
theorem tps_active_zero_counterexample :
    mapsAfterActive.1 "k" = some ⟨some 0, true⟩ ∧ ¬ (0 : ℚ) < 0 :=
  ⟨mapsAfterActive_eval.1, by norm_num⟩

/-- Claim C10 amended: across all ticks, every ACTIVE entry of the
per-session throughput map holds a NON-NEGATIVE stored rate (an entry is
only marked active together with a freshly computed `calcTPS` result, which
is the unrounded positive rate rounded to one decimal and can round down to
exactly 0): the invariant holds for the initial empty map and is preserved
by every refresh tick. -/
theorem tps_active_nonneg_invariant :
    ActiveNonneg initialData.sessionTPS ∧
    (∀ inp st, ActiveNonneg st.data.sessionTPS →
       ActiveNonneg (refresh inp st).1.data.sessionTPS) := by
  constructor
  · intro k en h
    exact absurd h (by simp [initialData])
  · intro inp st h
    rcases hcm : inp.cpuMem with _ | cm
    · simpa only [refresh, hcm] using h
    · obtain ⟨cpu, mem⟩ := cm
      rcases hsy : inp.sysinfo with _ | sysi
      · simpa only [refresh, hcm, hsy] using h
      · simp only [refresh, hcm, hsy]
        exact tpsApply_activeNonneg _ _ _ (by
          simpa only [statusApply_sessionTPS, netApply_sessionTPS,
            gpuApply_sessionTPS, diskApply_sessionTPS] using h)

/-- Claim C10 amended witness: the map after the slow-trickle active tick
satisfies the non-negativity invariant (its one active entry stores 0),
via preservation from the constructor state over a concrete tick. -/
theorem tps_active_nonneg_invariant_witness :
    ActiveNonneg (refresh baseInputs (initState defaultSettings 0)).1.data.sessionTPS :=
  tps_active_nonneg_invariant.2 baseInputs (initState defaultSettings 0)
    (fun k en h => absurd h (by simp [initState, initialData]))

end ClawDashboard
